import Mathlib

/-!
Verification of the EquoraAI newsletter subsystem
(`src/services/newsletterService.js`) against its specification.

The service's stateful operations are embedded shallowly:

* The persisted subscriber collection (`newsletter-subscribers.json`) is
  passed in and returned explicitly as a `List Subscriber`; a successful
  `saveSubscribers` call corresponds to the returned list.
* JavaScript timestamps (`new Date().toISOString()` and `Date.now()`, both
  read from the same clock at one point in each call) are modelled by a
  single abstract `now : Nat` parameter.
* The nodemailer transport is modelled by an oracle: the callback
  `(error, info)` delivers `none` for a successful send and `some e` for a
  transport error or the 30-second timeout rejection.
* A record's `isActive` field may be absent in the stored JSON, so it is
  modelled as `Option Bool` (`none` = field absent).
-/

/-- A stored subscriber record, mirroring the JSON objects produced by
`subscribeNewsletter`. -/
structure Subscriber where
  id : String
  email : String
  name : Option String
  topics : List String
  sources : List String
  frequency : String
  isActive : Option Bool
  createdAt : Nat
  updatedAt : Nat
deriving Repr, DecidableEq

/-- The argument object of `subscribeNewsletter({email, name, topics, sources,
frequency})`, after its destructuring defaults have been applied. -/
structure SubscribeParams where
  email : String
  name : Option String
  topics : List String
  sources : List String
  frequency : String
deriving Repr, DecidableEq

/-- An error delivered to a nodemailer `sendMail` callback, or the
30-second timeout rejection raced against it. -/
inductive SendError where
  | transport (msg : String)
  | timeout
deriving Repr, DecidableEq

/-- The updated-subscription object built by spreading an existing record
(`{...subscribers[existingIndex], name, topics, sources, frequency,
updatedAt}`): `id`, `email`, `isActive` and `createdAt` come from the old
record, everything else from the new call. -/
def appliedUpdate (p : SubscribeParams) (now : Nat) (s : Subscriber) : Subscriber :=
  { s with name := p.name, topics := p.topics, sources := p.sources,
           frequency := p.frequency, updatedAt := now }

/-- The body of the `existingIndex >= 0` branch of `subscribeNewsletter`:
find the first record whose `email` strictly equals the requested email
(`findIndex(sub => sub.email === email)`), overwrite `name`, `topics`,
`sources`, `frequency` and `updatedAt` by spreading the old record, and put
the result back at the same index.  Returns `none` when no record matches
(`existingIndex = -1`). -/
def updateFirst (p : SubscribeParams) (now : Nat) :
    List Subscriber → Option (Subscriber × List Subscriber)
  | [] => none
  | s :: rest =>
    if s.email = p.email then
      let updated : Subscriber := appliedUpdate p now s
      some (updated, updated :: rest)
    else
      match updateFirst p now rest with
      | some (u, rest') => some (u, s :: rest')
      | none => none

/-- The fresh record built in the `existingIndex < 0` branch of
`subscribeNewsletter`: a new id from the clock, `isActive: true`, and
`createdAt = updatedAt = now`. -/
def newSubscription (p : SubscribeParams) (now : Nat) : Subscriber :=
  { id := "sub_" ++ toString now
    email := p.email
    name := p.name
    topics := p.topics
    sources := p.sources
    frequency := p.frequency
    isActive := some true
    createdAt := now
    updatedAt := now }

/-- Observable outcome of one `subscribeNewsletter` call: the returned
subscription object, the collection passed to `saveSubscribers`, and whether
a welcome email was attempted (only new subscribers get one). -/
structure SubscribeRun where
  returned : Subscriber
  saved : List Subscriber
  welcomeAttempted : Bool
deriving Repr, DecidableEq

/-- `subscribeNewsletter`: load the collection, upsert by email, save, and
for a brand-new subscriber attempt the welcome email inside its own
`try { await sendWelcomeEmail(...) } catch`, whose catch branch only logs
("Don't fail the subscription process if email fails").  The transport
outcome of that welcome send is the `welcome` oracle argument; both of its
branches produce the same successful result. -/
def subscribeNewsletter (p : SubscribeParams) (now : Nat)
    (subs : List Subscriber) (welcome : Option SendError) : SubscribeRun :=
  match updateFirst p now subs with
  | some (subscription, updated) =>
      { returned := subscription, saved := updated, welcomeAttempted := false }
  | none =>
      let subscription := newSubscription p now
      let updated := subs ++ [subscription]
      match welcome with
      | none => { returned := subscription, saved := updated, welcomeAttempted := true }
      | some _ => { returned := subscription, saved := updated, welcomeAttempted := true }

/-- The mutation step of `unsubscribeNewsletter`: find the first record with
the given email, flip `isActive` to `false` and refresh `updatedAt`, leaving
every other record untouched.  Returns `none` when `findIndex` yields `-1`. -/
def setInactiveFirst (email : String) (now : Nat) :
    List Subscriber → Option (List Subscriber)
  | [] => none
  | s :: rest =>
    if s.email = email then
      some ({ s with isActive := some false, updatedAt := now } :: rest)
    else
      match setInactiveFirst email now rest with
      | some rest' => some (s :: rest')
      | none => none

/-- Observable outcome of one `unsubscribeNewsletter` call: the returned
`{success, message}` object, whether `saveSubscribers` was called, and the
resulting persisted collection (unchanged when no save happened). -/
structure UnsubscribeRun where
  success : Bool
  message : String
  saved : Bool
  store : List Subscriber
deriving Repr, DecidableEq

/-- `unsubscribeNewsletter(email)`: on a missing email it returns the
not-found result without calling `saveSubscribers`; otherwise it marks the
record inactive, saves, and returns success. -/
def unsubscribeNewsletter (email : String) (now : Nat)
    (subs : List Subscriber) : UnsubscribeRun :=
  match setInactiveFirst email now subs with
  | none =>
      { success := false, message := "Email not found in subscribers list"
        saved := false, store := subs }
  | some updated =>
      { success := true, message := "Successfully unsubscribed"
        saved := true, store := updated }

/-- `getNewsletterSubscribers(activeOnly)`: with `activeOnly` the filter
keeps every record with `sub.isActive !== false` (an absent field passes). -/
def getNewsletterSubscribers (activeOnly : Bool)
    (subscribers : List Subscriber) : List Subscriber :=
  if activeOnly then subscribers.filter (fun s => s.isActive != some false)
  else subscribers

/-- One transport attempt observed during a newsletter batch: the `to`
address of the mail options and the error (if any) its send produced. -/
structure SendAttempt where
  recipient : String
  error : Option SendError
deriving Repr, DecidableEq

/-- The per-subscriber loop of `sendNewsletter`.  Each iteration awaits one
`sendMail` (outcome given by the `send` oracle) and, still inside the same
`try`, awaits the 1000 ms pacing delay — so the delay only happens when the
send resolved; a rejection jumps to the `catch`, which logs and lets the
loop continue with the next subscriber.  Returns the list of transport
attempts in order and the number of pacing delays awaited. -/
def sendLoop (send : String → Option SendError) :
    List String → List SendAttempt × Nat
  | [] => ([], 0)
  | e :: rest =>
    let next := sendLoop send rest
    match send e with
    | none => ({ recipient := e, error := none } :: next.1, next.2 + 1)
    | some er => ({ recipient := e, error := some er } :: next.1, next.2)

/-- Observable outcome of one `sendNewsletter` call: the ordered transport
attempts, the number of inter-message delays awaited, and the returned
boolean. -/
structure BatchTrace where
  attempts : List SendAttempt
  delays : Nat
  result : Bool
deriving Repr, DecidableEq

/-- The subscriber list `sendNewsletter` starts from: the active
subscribers, narrowed to `specificEmail` when one was supplied. -/
def requestedSubscribers (specificEmail : Option String)
    (stored : List Subscriber) : List Subscriber :=
  let allSubscribers := getNewsletterSubscribers true stored
  match specificEmail with
  | some e => allSubscribers.filter (fun s => s.email == e)
  | none => allSubscribers

/-- `sendNewsletter(specificEmail)`: load active subscribers, optionally
narrow to one email, return early when none remain, apply the test-mode
redirection (replace the whole list by the single test recipient, or with no
recipient configured return without touching the transport), then run the
sequential send loop and return `true`. -/
def sendNewsletter (specificEmail : Option String) (testMode : Bool)
    (testRecipient : Option String) (send : String → Option SendError)
    (stored : List Subscriber) : BatchTrace :=
  let subscribers := requestedSubscribers specificEmail stored
  if subscribers.isEmpty then
    { attempts := [], delays := 0, result := true }
  else if testMode then
    match testRecipient with
    | some r =>
        let outcome := sendLoop send [r]
        { attempts := outcome.1, delays := outcome.2, result := true }
    | none => { attempts := [], delays := 0, result := true }
  else
    let outcome := sendLoop send (subscribers.map (fun s => s.email))
    { attempts := outcome.1, delays := outcome.2, result := true }

/-- Number of attempts in a batch trace whose send succeeded. -/
def succeededCount (t : BatchTrace) : Nat :=
  (t.attempts.filter (fun a => a.error.isNone)).length

/-- Number of attempts in a batch trace whose send failed. -/
def failedCount (t : BatchTrace) : Nat :=
  (t.attempts.filter (fun a => a.error.isSome)).length

/-! ### Helper lemmas about the embedded operations -/

/-- When no stored record carries the requested email, the upsert search
comes back empty (`findIndex` returns `-1`). -/
theorem updateFirst_eq_none (p : SubscribeParams) (now : Nat)
    (subs : List Subscriber) (h : ∀ s ∈ subs, s.email ≠ p.email) :
    updateFirst p now subs = none := by
  induction subs with
  | nil => rfl
  | cons s rest ih =>
    have hs : s.email ≠ p.email := h s (List.mem_cons_self s rest)
    have hr := ih (fun t ht => h t (List.mem_cons_of_mem s ht))
    simp [updateFirst, hs, hr]

/-- Conversely, an empty upsert search means no stored record carries the
requested email. -/
theorem email_notMem_of_updateFirst_eq_none (p : SubscribeParams) (now : Nat)
    (subs : List Subscriber) (h : updateFirst p now subs = none) :
    ∀ s ∈ subs, s.email ≠ p.email := by
  induction subs with
  | nil => intro s hs; cases hs
  | cons s rest ih =>
    intro t ht
    by_cases hs : s.email = p.email
    · simp [updateFirst, hs] at h
    · cases hrest : updateFirst p now rest with
      | none =>
        rcases List.mem_cons.mp ht with rfl | htr
        · exact hs
        · exact ih hrest t htr
      | some pr => simp [updateFirst, hs, hrest] at h

/-- Updating a collection whose sole match is a final record `s0` rewrites
exactly that record in place. -/
theorem updateFirst_append_single (p : SubscribeParams) (now : Nat)
    (subs : List Subscriber) (s0 : Subscriber)
    (h : ∀ s ∈ subs, s.email ≠ p.email) (h0 : s0.email = p.email) :
    updateFirst p now (subs ++ [s0]) =
      some (appliedUpdate p now s0, subs ++ [appliedUpdate p now s0]) := by
  induction subs with
  | nil => simp [updateFirst, h0]
  | cons s rest ih =>
    have hs : s.email ≠ p.email := h s (List.mem_cons_self s rest)
    have hrest := ih (fun t ht => h t (List.mem_cons_of_mem s ht))
    simp [updateFirst, hs, hrest]

/-- The in-place upsert update never changes the sequence of stored
emails. -/
theorem updateFirst_map_email (p : SubscribeParams) (now : Nat) :
    ∀ (subs : List Subscriber) (u : Subscriber) (subs' : List Subscriber),
      updateFirst p now subs = some (u, subs') →
      subs'.map (fun s => s.email) = subs.map (fun s => s.email) := by
  intro subs
  induction subs with
  | nil => intro u subs' h; simp [updateFirst] at h
  | cons s rest ih =>
    intro u subs' h
    by_cases hs : s.email = p.email
    · simp [updateFirst, hs] at h
      obtain ⟨-, hsubs⟩ := h
      subst hsubs
      simp [appliedUpdate, hs]
    · cases hrest : updateFirst p now rest with
      | none => simp [updateFirst, hs, hrest] at h
      | some pr =>
        obtain ⟨u', rest'⟩ := pr
        simp [updateFirst, hs, hrest] at h
        obtain ⟨-, hsubs⟩ := h
        subst hsubs
        simp [ih u' rest' hrest]

/-- When no stored record carries the email, the unsubscribe search comes
back empty. -/
theorem setInactiveFirst_eq_none (email : String) (now : Nat)
    (subs : List Subscriber) (h : ∀ s ∈ subs, s.email ≠ email) :
    setInactiveFirst email now subs = none := by
  induction subs with
  | nil => rfl
  | cons s rest ih =>
    have hs : s.email ≠ email := h s (List.mem_cons_self s rest)
    have hr := ih (fun t ht => h t (List.mem_cons_of_mem s ht))
    simp [setInactiveFirst, hs, hr]

/-- Deactivating the unique matching record rewrites exactly that record in
place, leaving the records before and after it untouched. -/
theorem setInactiveFirst_split (email : String) (now : Nat)
    (pre post : List Subscriber) (s0 : Subscriber)
    (hpre : ∀ s ∈ pre, s.email ≠ email) (h0 : s0.email = email) :
    setInactiveFirst email now (pre ++ s0 :: post) =
      some (pre ++ { s0 with isActive := some false, updatedAt := now } :: post) := by
  induction pre with
  | nil => simp [setInactiveFirst, h0]
  | cons s rest ih =>
    have hs : s.email ≠ email := hpre s (List.mem_cons_self s rest)
    have hrest := ih (fun t ht => hpre t (List.mem_cons_of_mem s ht))
    simp [setInactiveFirst, hs, hrest]

/-- The soft-delete mutation never changes the sequence of stored emails:
no record is inserted or removed. -/
theorem setInactiveFirst_map_email (email : String) (now : Nat) :
    ∀ (subs subs' : List Subscriber),
      setInactiveFirst email now subs = some subs' →
      subs'.map (fun s => s.email) = subs.map (fun s => s.email) := by
  intro subs
  induction subs with
  | nil => intro subs' h; simp [setInactiveFirst] at h
  | cons s rest ih =>
    intro subs' h
    by_cases hs : s.email = email
    · simp [setInactiveFirst, hs] at h
      subst h
      simp [hs]
    · cases hrest : setInactiveFirst email now rest with
      | none => simp [setInactiveFirst, hs, hrest] at h
      | some rest' =>
        simp [setInactiveFirst, hs, hrest] at h
        subst h
        simp [ih rest' hrest]

/-- The send loop attempts every requested recipient once, in order,
whatever the transport outcomes are. -/
theorem sendLoop_map_recipient (send : String → Option SendError) :
    ∀ emails : List String,
      ((sendLoop send emails).1).map (fun a => a.recipient) = emails := by
  intro emails
  induction emails with
  | nil => rfl
  | cons e rest ih =>
    cases hse : send e with
    | none => simp [sendLoop, hse, ih]
    | some er => simp [sendLoop, hse, ih]

/-- The send loop records the outcome the transport oracle produced for
each recipient. -/
theorem sendLoop_error_eq (send : String → Option SendError) :
    ∀ emails : List String, ∀ a ∈ (sendLoop send emails).1,
      a.error = send a.recipient := by
  intro emails
  induction emails with
  | nil => intro a ha; cases ha
  | cons e rest ih =>
    intro a ha
    cases hse : send e with
    | none =>
      simp [sendLoop, hse] at ha
      rcases ha with rfl | ha
      · simp [hse]
      · exact ih a ha
    | some er =>
      simp [sendLoop, hse] at ha
      rcases ha with rfl | ha
      · simp [hse]
      · exact ih a ha

/-- The pacing delay is awaited exactly once per successful send: a
rejected send skips it. -/
theorem sendLoop_delays_eq (send : String → Option SendError) :
    ∀ emails : List String,
      (sendLoop send emails).2 =
        (((sendLoop send emails).1).filter (fun a => a.error.isNone)).length := by
  intro emails
  induction emails with
  | nil => rfl
  | cons e rest ih =>
    cases hse : send e with
    | none => simp [sendLoop, hse, ih]
    | some er => simp [sendLoop, hse, ih]

/-! ### Concrete fixtures -/

/-- A minimal active stored record, as `subscribeNewsletter` would have
created it at clock 0. -/
def mkSub (e : String) : Subscriber :=
  { id := "sub_0", email := e, name := none, topics := [], sources := [],
    frequency := "daily", isActive := some true, createdAt := 0, updatedAt := 0 }

/-- Five active subscribers, the batch-isolation scenario of the spec. -/
def fiveSubs : List Subscriber :=
  [mkSub "r1@example.com", mkSub "r2@example.com", mkSub "r3@example.com",
   mkSub "r4@example.com", mkSub "r5@example.com"]

/-- A transport oracle on which recipient #3's send always fails and every
other send succeeds. -/
def failThird (e : String) : Option SendError :=
  if e = "r3@example.com" then some (SendError.transport "mailbox unavailable")
  else none

/-! ### C1: test-mode collapse -/

/-- C1 (counterexample): with test mode enabled and a test recipient
configured but zero active subscribers requested, `sendNewsletter` performs
zero transport sends, not the one send the claim requires for every
subscriber count including zero — the empty-list early return fires before
the test-mode redirection is ever consulted. -/
theorem C1_counterexample :
    (sendNewsletter none true (some "test@example.com") (fun _ => none)
        []).attempts.length = 0 := by
  rfl

/-- C1 (amended): with test mode enabled, a test recipient configured and a
nonempty requested subscriber list, `sendNewsletter` performs exactly one
transport send, addressed to the test recipient, however many subscribers
were requested; with zero subscribers it performs no send at all. -/
theorem C1_test_mode_collapse (specificEmail : Option String) (r : String)
    (send : String → Option SendError) (stored : List Subscriber)
    (h : requestedSubscribers specificEmail stored ≠ []) :
    (sendNewsletter specificEmail true (some r) send stored).attempts.map
        (fun a => a.recipient) = [r] ∧
    (sendNewsletter none true (some r) send []).attempts = [] := by
  have hne : (requestedSubscribers specificEmail stored).isEmpty = false := by
    cases hcase : requestedSubscribers specificEmail stored
    · exact absurd hcase h
    · rfl
  constructor
  · cases hsr : send r with
    | none => simp [sendNewsletter, hne, sendLoop, hsr]
    | some er => simp [sendNewsletter, hne, sendLoop, hsr]
  · rfl

/-- C1 (witness): a store holding one real active subscriber, test mode on,
test recipient configured: the single attempt goes to the test recipient. -/
theorem C1_test_mode_collapse_witness :
    (sendNewsletter none true (some "test@example.com") (fun _ => none)
        [mkSub "r1@example.com"]).attempts.map (fun a => a.recipient) =
      ["test@example.com"] :=
  (C1_test_mode_collapse none "test@example.com" (fun _ => none)
    [mkSub "r1@example.com"] (by decide)).1

/-! ### C2: per-recipient failure isolation -/

/-- C2: a failing send never aborts the batch: the sequence of recipients
`sendNewsletter` attempts does not depend on the transport outcomes at all
(every recipient after a failing one is still attempted), and the run
completes normally, returning `true`. -/
theorem C2_failure_isolation (specificEmail : Option String) (testMode : Bool)
    (testRecipient : Option String) (failing send : String → Option SendError)
    (stored : List Subscriber) :
    (sendNewsletter specificEmail testMode testRecipient failing stored).attempts.map
        (fun a => a.recipient) =
      (sendNewsletter specificEmail testMode testRecipient send stored).attempts.map
        (fun a => a.recipient) ∧
    (sendNewsletter specificEmail testMode testRecipient failing stored).result = true := by
  cases hempty : (requestedSubscribers specificEmail stored).isEmpty with
  | true => simp [sendNewsletter, hempty]
  | false =>
    cases testMode with
    | false => simp [sendNewsletter, hempty, sendLoop_map_recipient]
    | true =>
      cases testRecipient with
      | none => simp [sendNewsletter, hempty]
      | some r => simp [sendNewsletter, hempty, sendLoop_map_recipient]

/-! ### C3: shape of the batch result -/

/-- C3 (counterexample): the value `sendNewsletter` returns carries no
succeeded/failed counts: a run of five subscribers where recipient #3 always
fails (4 successes, 1 failure) returns exactly the same value as a run where
all five succeed, so the return value cannot report either count, let alone
per-recipient error detail. -/
theorem C3_counterexample :
    (sendNewsletter none false none failThird fiveSubs).result =
      (sendNewsletter none false none (fun _ => none) fiveSubs).result ∧
    succeededCount (sendNewsletter none false none failThird fiveSubs) = 4 ∧
    failedCount (sendNewsletter none false none failThird fiveSubs) = 1 ∧
    succeededCount (sendNewsletter none false none (fun _ => none) fiveSubs) = 5 ∧
    failedCount (sendNewsletter none false none (fun _ => none) fiveSubs) = 0 := by
  decide

/-- C3 (amended): `sendNewsletter` returns the bare boolean `true` for every
completed run; succeeded/failed counts and per-recipient error detail exist
only in the transport trace (the code merely logs them).  In the
five-subscriber run where #3 always fails, the trace shows 4 successes and
1 failure across all five attempted recipients, while the call returns
`true`. -/
theorem C3_batch_report :
    (∀ (specificEmail : Option String) (testMode : Bool)
       (testRecipient : Option String) (send : String → Option SendError)
       (stored : List Subscriber),
       (sendNewsletter specificEmail testMode testRecipient send stored).result = true) ∧
    succeededCount (sendNewsletter none false none failThird fiveSubs) = 4 ∧
    failedCount (sendNewsletter none false none failThird fiveSubs) = 1 ∧
    (sendNewsletter none false none failThird fiveSubs).attempts.map
        (fun a => a.recipient) =
      ["r1@example.com", "r2@example.com", "r3@example.com",
       "r4@example.com", "r5@example.com"] := by
  refine ⟨?_, by decide, by decide, by decide⟩
  intro specificEmail testMode testRecipient send stored
  cases hempty : (requestedSubscribers specificEmail stored).isEmpty with
  | true => simp [sendNewsletter, hempty]
  | false =>
    cases testMode with
    | false => simp [sendNewsletter, hempty]
    | true =>
      cases testRecipient with
      | none => simp [sendNewsletter, hempty]
      | some r => simp [sendNewsletter, hempty]

/-! ### C4: inter-message pacing -/

/-- C4 (counterexample): a single recipient whose send fails is attempted,
but the inter-message delay is skipped: the 1000 ms pause sits inside the
same `try` block as the awaited send, so a rejection jumps to the `catch`
before the delay runs — contradicting the claim that the engine waits after
every send, success or failure. -/
theorem C4_counterexample :
    (sendNewsletter none false none (fun _ => some SendError.timeout)
        [mkSub "r1@example.com"]).attempts.length = 1 ∧
    (sendNewsletter none false none (fun _ => some SendError.timeout)
        [mkSub "r1@example.com"]).delays = 0 := by
  decide

/-- C4 (amended): within one `sendNewsletter` run the engine awaits the
inter-message delay exactly once per *successful* send; after a failed send
the delay is skipped and the loop proceeds immediately to the next
recipient. -/
theorem C4_delay_after_success (specificEmail : Option String) (testMode : Bool)
    (testRecipient : Option String) (send : String → Option SendError)
    (stored : List Subscriber) :
    (sendNewsletter specificEmail testMode testRecipient send stored).delays =
      succeededCount (sendNewsletter specificEmail testMode testRecipient send stored) := by
  cases hempty : (requestedSubscribers specificEmail stored).isEmpty with
  | true => simp [sendNewsletter, succeededCount, hempty]
  | false =>
    cases testMode with
    | false => simp [sendNewsletter, succeededCount, hempty, sendLoop_delays_eq]
    | true =>
      cases testRecipient with
      | none => simp [sendNewsletter, succeededCount, hempty]
      | some r => simp [sendNewsletter, succeededCount, hempty, sendLoop_delays_eq]

/-! ### C5: idempotent subscribe -/

/-- First subscribe call of the idempotence fixtures. -/
def pA : SubscribeParams :=
  { email := "a@b.com", name := some "Alice", topics := ["stocks"],
    sources := ["reuters"], frequency := "daily" }

/-- Second subscribe call of the idempotence fixtures: same email,
different field values. -/
def pB : SubscribeParams :=
  { email := "a@b.com", name := some "Al", topics := ["crypto"],
    sources := [], frequency := "weekly" }

/-- C5: subscribing twice with the same email (previously unseen) leaves
exactly one stored record for it, carrying the second call's `name`,
`topics`, `sources` and `frequency`, the same `id`, the unchanged
`createdAt` and `isActive`, and `updatedAt` refreshed to the second call's
clock; the second call attempts no welcome message. -/
theorem C5_idempotent_subscribe (p1 p2 : SubscribeParams) (t1 t2 : Nat)
    (subs : List Subscriber) (w1 w2 : Option SendError) (r1 r2 : SubscribeRun)
    (h1 : ∀ s ∈ subs, s.email ≠ p1.email) (h2 : p2.email = p1.email)
    (hr1 : subscribeNewsletter p1 t1 subs w1 = r1)
    (hr2 : subscribeNewsletter p2 t2 r1.saved w2 = r2) :
    r2.saved.filter (fun s => s.email == p1.email) = [r2.returned] ∧
    r2.returned.name = p2.name ∧ r2.returned.topics = p2.topics ∧
    r2.returned.sources = p2.sources ∧ r2.returned.frequency = p2.frequency ∧
    r2.returned.id = r1.returned.id ∧
    r2.returned.createdAt = r1.returned.createdAt ∧
    r2.returned.isActive = r1.returned.isActive ∧
    r2.returned.updatedAt = t2 ∧
    r2.welcomeAttempted = false ∧
    r2.saved = subs ++ [r2.returned] := by
  subst hr1
  subst hr2
  have hnone : updateFirst p1 t1 subs = none := updateFirst_eq_none p1 t1 subs h1
  have e1 : subscribeNewsletter p1 t1 subs w1 =
      { returned := newSubscription p1 t1,
        saved := subs ++ [newSubscription p1 t1], welcomeAttempted := true } := by
    cases w1 <;> simp [subscribeNewsletter, hnone]
  rw [e1]
  have h1' : ∀ s ∈ subs, s.email ≠ p2.email := by
    intro s hs
    rw [h2]
    exact h1 s hs
  have h0 : (newSubscription p1 t1).email = p2.email := by
    simp [newSubscription, h2]
  have hupd := updateFirst_append_single p2 t2 subs (newSubscription p1 t1) h1' h0
  have e2 : subscribeNewsletter p2 t2 (subs ++ [newSubscription p1 t1]) w2 =
      { returned := appliedUpdate p2 t2 (newSubscription p1 t1),
        saved := subs ++ [appliedUpdate p2 t2 (newSubscription p1 t1)],
        welcomeAttempted := false } := by
    simp [subscribeNewsletter, hupd]
  rw [e2]
  have hfilter : subs.filter (fun s => s.email == p1.email) = [] := by
    rw [List.filter_eq_nil_iff]
    intro s hs
    simp [h1 s hs]
  refine ⟨?_, ?_, ?_, ?_, ?_, ?_, ?_, ?_, ?_, ?_, ?_⟩
  · rw [List.filter_append, hfilter]
    simp [appliedUpdate, newSubscription, h2]
  · simp [appliedUpdate]
  · simp [appliedUpdate]
  · simp [appliedUpdate]
  · simp [appliedUpdate]
  · simp [appliedUpdate, newSubscription]
  · simp [appliedUpdate, newSubscription]
  · simp [appliedUpdate, newSubscription]
  · simp [appliedUpdate]
  · rfl
  · rfl

/-- C5 (witness): the two concrete calls (`pA` at clock 1 on an empty
store, then `pB` at clock 2) leave exactly one stored record for the
shared email, namely the record the second call returned. -/
theorem C5_idempotent_subscribe_witness :
    (subscribeNewsletter pB 2 (subscribeNewsletter pA 1 [] none).saved
        (some SendError.timeout)).saved.filter (fun s => s.email == pA.email) =
      [(subscribeNewsletter pB 2 (subscribeNewsletter pA 1 [] none).saved
          (some SendError.timeout)).returned] :=
  (C5_idempotent_subscribe pA pB 1 2 [] none (some SendError.timeout)
    (subscribeNewsletter pA 1 [] none)
    (subscribeNewsletter pB 2 (subscribeNewsletter pA 1 [] none).saved
      (some SendError.timeout))
    (by intro s hs; cases hs) rfl rfl rfl).1

/-! ### C6: welcome-send failure is decoupled from subscribe -/

/-- C6: a first-time subscribe whose welcome send fails (transport error or
timeout) still persists the new record and returns it; the result is
identical to the one a successful welcome send produces, so the failure
never reaches the caller and nothing is rolled back. -/
theorem C6_welcome_failure_decoupled (p : SubscribeParams) (now : Nat)
    (subs : List Subscriber) (er : SendError)
    (h : ∀ s ∈ subs, s.email ≠ p.email) :
    subscribeNewsletter p now subs (some er) =
      { returned := newSubscription p now,
        saved := subs ++ [newSubscription p now], welcomeAttempted := true } ∧
    subscribeNewsletter p now subs (some er) =
      subscribeNewsletter p now subs none := by
  have hnone : updateFirst p now subs = none := updateFirst_eq_none p now subs h
  constructor <;> simp [subscribeNewsletter, hnone]

/-- C6 (witness): a timed-out welcome send on a first-time subscribe of
`pA` against the empty store still persists and returns the new record. -/
theorem C6_welcome_failure_decoupled_witness :
    subscribeNewsletter pA 1 [] (some SendError.timeout) =
      { returned := newSubscription pA 1,
        saved := [] ++ [newSubscription pA 1], welcomeAttempted := true } :=
  (C6_welcome_failure_decoupled pA 1 [] SendError.timeout
    (by intro s hs; cases hs)).1

/-! ### C7: unknown unsubscribe performs no write -/

/-- C7: when no stored record (active or inactive) carries the email,
`unsubscribeNewsletter` returns the not-found failure result and performs no
write: `saveSubscribers` is never called and the collection is exactly what
it was. -/
theorem C7_unknown_unsubscribe (email : String) (now : Nat)
    (subs : List Subscriber) (h : ∀ s ∈ subs, s.email ≠ email) :
    (unsubscribeNewsletter email now subs).success = false ∧
    (unsubscribeNewsletter email now subs).message =
      "Email not found in subscribers list" ∧
    (unsubscribeNewsletter email now subs).saved = false ∧
    (unsubscribeNewsletter email now subs).store = subs := by
  have hnone : setInactiveFirst email now subs = none :=
    setInactiveFirst_eq_none email now subs h
  simp [unsubscribeNewsletter, hnone]

/-- C7 (witness): `unsubscribe("nobody@x.com")` on the empty store fails
with the not-found result and writes nothing. -/
theorem C7_unknown_unsubscribe_witness :
    (unsubscribeNewsletter "nobody@x.com" 5 []).success = false ∧
    (unsubscribeNewsletter "nobody@x.com" 5 []).message =
      "Email not found in subscribers list" ∧
    (unsubscribeNewsletter "nobody@x.com" 5 []).saved = false ∧
    (unsubscribeNewsletter "nobody@x.com" 5 []).store = [] :=
  C7_unknown_unsubscribe "nobody@x.com" 5 [] (by intro s hs; cases hs)

/-! ### C8: soft-delete visibility -/

/-- C8: unsubscribing an email whose unique record sits anywhere in the
collection keeps the record, flips `isActive` to `false` and refreshes
`updatedAt`; afterwards the active-only listing excludes that email while
the full listing still contains it, inactive. -/
theorem C8_soft_delete_visibility (e : String) (now : Nat)
    (pre post : List Subscriber) (s0 : Subscriber)
    (h0 : s0.email = e)
    (hpre : ∀ s ∈ pre, s.email ≠ e) (hpost : ∀ s ∈ post, s.email ≠ e) :
    (unsubscribeNewsletter e now (pre ++ s0 :: post)).store =
      pre ++ { s0 with isActive := some false, updatedAt := now } :: post ∧
    (∀ s ∈ getNewsletterSubscribers true
        (unsubscribeNewsletter e now (pre ++ s0 :: post)).store, s.email ≠ e) ∧
    (∃ s ∈ getNewsletterSubscribers false
        (unsubscribeNewsletter e now (pre ++ s0 :: post)).store,
      s.email = e ∧ s.isActive = some false ∧ s.updatedAt = now) := by
  have hsplit := setInactiveFirst_split e now pre post s0 hpre h0
  have hstore : (unsubscribeNewsletter e now (pre ++ s0 :: post)).store =
      pre ++ { s0 with isActive := some false, updatedAt := now } :: post := by
    simp [unsubscribeNewsletter, hsplit]
  refine ⟨hstore, ?_, ?_⟩
  · rw [hstore]
    intro s hs
    simp only [getNewsletterSubscribers, if_pos, List.mem_filter] at hs
    obtain ⟨hmem, hact⟩ := hs
    rcases List.mem_append.mp hmem with hp | hq
    · exact hpre s hp
    · rcases List.mem_cons.mp hq with rfl | hq'
      · simp at hact
      · exact hpost s hq'
  · rw [hstore]
    refine ⟨{ s0 with isActive := some false, updatedAt := now }, ?_, h0, rfl, rfl⟩
    simp [getNewsletterSubscribers]

/-- C8 (witness): unsubscribing the only stored subscriber marks exactly
that record inactive with the new timestamp. -/
theorem C8_soft_delete_visibility_witness :
    (unsubscribeNewsletter "a@b.com" 7 ([] ++ mkSub "a@b.com" :: [])).store =
      [] ++ { mkSub "a@b.com" with isActive := some false, updatedAt := 7 } :: [] :=
  (C8_soft_delete_visibility "a@b.com" 7 [] [] (mkSub "a@b.com") rfl
    (by intro s hs; cases hs) (by intro s hs; cases hs)).1

/-! ### C9: at most one record per email -/

/-- C9: the store invariant "at most one record per email (compared
verbatim)" is preserved by both core operations: the upsert of
`subscribeNewsletter` (in-place update when the email is found, append only
when it is absent) and the in-place mutation of `unsubscribeNewsletter`
(which inserts nothing). -/
theorem C9_unique_email_invariant (p : SubscribeParams) (now : Nat)
    (subs : List Subscriber) (w : Option SendError) (e : String) (now2 : Nat)
    (h : (subs.map (fun s => s.email)).Nodup) :
    ((subscribeNewsletter p now subs w).saved.map (fun s => s.email)).Nodup ∧
    ((unsubscribeNewsletter e now2 subs).store.map (fun s => s.email)).Nodup := by
  constructor
  · cases hup : updateFirst p now subs with
    | some pr =>
      obtain ⟨u, subs'⟩ := pr
      have hmap := updateFirst_map_email p now subs u subs' hup
      simp [subscribeNewsletter, hup, hmap, h]
    | none =>
      have hnotin := email_notMem_of_updateFirst_eq_none p now subs hup
      have hsaved : (subscribeNewsletter p now subs w).saved =
          subs ++ [newSubscription p now] := by
        cases w <;> simp [subscribeNewsletter, hup]
      rw [hsaved, List.map_append]
      refine List.Nodup.append h (by simp) ?_
      intro a ha hb
      simp [newSubscription] at hb
      subst hb
      obtain ⟨s, hs, hse⟩ := List.mem_map.mp ha
      exact hnotin s hs hse
  · cases hset : setInactiveFirst e now2 subs with
    | none => simp [unsubscribeNewsletter, hset, h]
    | some subs' =>
      have hmap := setInactiveFirst_map_email e now2 subs subs' hset
      simp [unsubscribeNewsletter, hset, hmap, h]

/-- C9 (witness): both operations applied to a one-record store with unique
emails keep the email sequence duplicate-free. -/
theorem C9_unique_email_invariant_witness :
    ((subscribeNewsletter pA 3 [mkSub "x@y.com"] none).saved.map
        (fun s => s.email)).Nodup ∧
    ((unsubscribeNewsletter "x@y.com" 4 [mkSub "x@y.com"]).store.map
        (fun s => s.email)).Nodup :=
  C9_unique_email_invariant pA 3 [mkSub "x@y.com"] none "x@y.com" 4 (by decide)

/-! ### C10: absent `isActive` counts as active -/

/-- C10: the active-only listing keeps exactly the records whose `isActive`
field is not the explicit value `false`: a record with the field absent is
treated as active, and only explicitly-false records are filtered out. -/
theorem C10_active_filter_semantics (subs : List Subscriber) (s : Subscriber) :
    s ∈ getNewsletterSubscribers true subs ↔
      s ∈ subs ∧ s.isActive ≠ some false := by
  simp [getNewsletterSubscribers, List.mem_filter]

/-- A stored record whose JSON object never had an `isActive` field. -/
def legacySub : Subscriber := { mkSub "legacy@x.com" with isActive := none }

/-- C10 (witness): a record with no `isActive` field is included by the
active-only listing. -/
theorem C10_active_filter_semantics_witness :
    legacySub ∈ getNewsletterSubscribers true [legacySub] :=
  (C10_active_filter_semantics [legacySub] legacySub).mpr
    ⟨by simp, by decide⟩
